import Mathlib

/-!
Verification of the reauthentication engine of `streamlit_ldap_authenticator`
(`authenticate.py`).  The engine is embedded shallowly:

* Python values that flow through the engine (session-state slots, JWT
  payloads, user-information records) are modelled by the inductive `JVal`.
  Python's exact-type tests (`type(x) is dict`, `type(x) is float`,
  `type(x) is bool`) become constructor tests; Python `float` and `int` are
  distinct constructors, as the code distinguishes them with `type(...)`.
* Unix timestamps are modelled by `Int` (seconds); `timedelta(days=d)` is
  `d * 86400` seconds.  Only comparisons of timestamps matter to the engine.
* A JWT string (`jwt.encode` / `jwt.decode` with HS256) is modelled by `Jwt`,
  a payload together with the key that signed it: `jwt.decode` succeeds and
  returns the payload exactly when the caller supplies the same key, and
  raises otherwise (invalid-signature and malformed-token failures collapse
  to the same raise, which `__tokenDecode` turns into `None`).
* The Streamlit session state, the browser cookie and the UI/LDAP/encryptor
  collaborators become an explicit `World` record, an `Env` of external
  results, and an `Effects` record counting adapter invocations
  (`ldap_auth.login` calls, cookie reads/writes/deletes, `st.rerun`).
  `time.sleep` calls have no observable effect and are not modelled.
-/

namespace StreamlitLdap

/-- Python values stored in session state, JWT payloads and user records.
Constructors mirror Python's runtime types; `type(x) is T` checks in the
source become constructor tests here. -/
inductive JVal where
  | jnull
  | jbool (b : Bool)
  | jint (n : Int)
  | jfloat (x : Int)
  | jstr (s : String)
  | jdict (kvs : List (String × JVal))
  | jlist (xs : List JVal)

/-- Test for Python `type(x) is dict`. -/
def JVal.isDict : JVal → Bool
  | JVal.jdict _ => true
  | _ => false

/-- Test for Python `type(x) is float`. -/
def JVal.isFloat : JVal → Bool
  | JVal.jfloat _ => true
  | _ => false

/-- A JSON number (Python `int` or `float`); used only by the spec-side
failure predicate, not by the code embedding. -/
def JVal.isNumeric : JVal → Bool
  | JVal.jint _ => true
  | JVal.jfloat _ => true
  | _ => false

/-- Numeric value of a `JVal` number (0 elsewhere); spec-side helper. -/
def JVal.numVal : JVal → Int
  | JVal.jint n => n
  | JVal.jfloat x => x
  | _ => 0

/-- Python `dict` lookup on the association-list representation. -/
def lookupKey (k : String) : List (String × JVal) → Option JVal
  | [] => none
  | (k', v) :: rest => if k' = k then some v else lookupKey k rest

/-- Result of an `additionalCheck` callback, typed in the source as
`Union[Literal[True], str]`: the literal `True`, or an error message. -/
inductive CheckResult where
  | ok
  | err (msg : String)
deriving DecidableEq

/-- A JWT blob: the payload together with the HS256 key it was signed with.
`jwt.decode(token, key)` returns `payload` iff `key` matches `sigKey`. -/
structure Jwt where
  payload : JVal
  sigKey : String

/-- The value handed to `__tokenDecode` (and stored as the browser cookie):
Python `None`, a JWT string, or a value of some other type. -/
inductive Tok where
  | noneTok
  | strTok (j : Jwt)
  | otherTok

/-- Cookie configuration (`CookieConfig`): cookie name, signing key, expiry in days, auto-renewal
flag.  (`delay_sec` only feeds `time.sleep` and is not modelled.) -/
structure CookieConfig where
  name : String
  key : String
  expiry_days : Int
  auto_renewal : Bool

/-- Embedding of `Authenticate.__tokenEncode`: sign `{'user': user, 'exp_date':
(utcnow + expiry_days).timestamp()}` with the configured key. -/
def tokenEncode (cfg : CookieConfig) (user : JVal) (now : Int) : Jwt :=
  { payload := JVal.jdict [("user", user), ("exp_date", JVal.jfloat (now + cfg.expiry_days * 86400))],
    sigKey := cfg.key }

/-- Embedding of `Authenticate.__tokenDecode`: every failure raises `CookieError` (or
`jwt.decode` raises), is caught, and becomes `none`; the function is total,
so no exception ever reaches the caller. -/
def tokenDecode (cfg : CookieConfig) (token : Tok) (now : Int) : Option JVal :=
  match token with
  | Tok.noneTok => none
  | Tok.otherTok => none
  | Tok.strTok j =>
    if j.sigKey = cfg.key then
      match j.payload with
      | JVal.jdict kvs =>
        match lookupKey "exp_date" kvs with
        | none => none
        | some ed =>
          match ed with
          | JVal.jfloat e =>
            if e < now then none
            else
              match lookupKey "user" kvs with
              | none => none
              | some u => if u.isDict then some u else none
          | _ => none
      | _ => none
    else none

/-- The specification's enumeration of `decode` failure conditions, taken
verbatim from its words: token absent, token not a string, signature
invalid, payload not a mapping, `exp_date` missing or NOT NUMERIC,
`exp_date` in the past, `user` missing or not a mapping. -/
def decodeFailsSpec (cfg : CookieConfig) (token : Tok) (now : Int) : Bool :=
  match token with
  | Tok.noneTok => true
  | Tok.otherTok => true
  | Tok.strTok j =>
    if j.sigKey = cfg.key then
      match j.payload with
      | JVal.jdict kvs =>
        match lookupKey "exp_date" kvs with
        | none => true
        | some ed =>
          if ed.isNumeric then
            if ed.numVal < now then true
            else
              match lookupKey "user" kvs with
              | none => true
              | some u => !u.isDict
          else true
      | _ => true
    else true

/-- The failure enumeration amended to match the code: `exp_date` must be a
Python `float` (an integer-typed timestamp is also rejected). -/
def decodeFailsFloat (cfg : CookieConfig) (token : Tok) (now : Int) : Bool :=
  match token with
  | Tok.noneTok => true
  | Tok.otherTok => true
  | Tok.strTok j =>
    if j.sigKey = cfg.key then
      match j.payload with
      | JVal.jdict kvs =>
        match lookupKey "exp_date" kvs with
        | none => true
        | some ed =>
          match ed with
          | JVal.jfloat e =>
            if e < now then true
            else
              match lookupKey "user" kvs with
              | none => true
              | some u => !u.isDict
          | _ => true
      | _ => true
    else true

/- ## Identity normalizer (`getLoginUserName`, `getInfo`)

`RegexEmail = ^[\w\-\.]+@([\w\-]+\.)+[\w\-]{2,4}$` and
`RegexDomain = ^(.*)\\(.*)$` are embedded as executable recognizers.
`\w` is modelled over its ASCII fragment (letters, digits, underscore);
the greedy `(.*)` of `RegexDomain` splits at the LAST backslash. -/

/-- A `\w` character (ASCII fragment of Python's word-character class). -/
def isWordChar (c : Char) : Bool := c.isAlphanum || c = '_'

/-- A character of the local part `[\w\-\.]`. -/
def isLocalChar (c : Char) : Bool := isWordChar c || c = '-' || c = '.'

/-- A character of a domain label `[\w\-]`. -/
def isLabelChar (c : Char) : Bool := isWordChar c || c = '-'

/-- Split a character list on a separator (like `str.split`, keeping empty
pieces). -/
def splitOnChar (sep : Char) : List Char → List (List Char)
  | [] => [[]]
  | c :: cs =>
    let r := splitOnChar sep cs
    if c = sep then [] :: r
    else
      match r with
      | [] => [[c]]
      | h :: t => (c :: h) :: t

/-- Recognizer for the domain part `([\w\-]+\.)+[\w\-]{2,4}` of
`RegexEmail`: one or more nonempty labels, then a final label of length
2 to 4, separated by dots. -/
def emailDomainOk (dom : List Char) : Bool :=
  match (splitOnChar '.' dom).reverse with
  | tld :: labels =>
    decide (2 ≤ tld.length) && decide (tld.length ≤ 4) && tld.all isLabelChar &&
    !labels.isEmpty && labels.all (fun p => decide (0 < p.length) && p.all isLabelChar)
  | [] => false

/-- Recognizer for `RegexEmail` on the whole string. -/
def matchEmail (s : String) : Bool :=
  match splitOnChar '@' s.data with
  | [lp, dom] => decide (0 < lp.length) && lp.all isLocalChar && emailDomainOk dom
  | _ => false

/-- The groups of `RegexDomain.match`: split at the last backslash (the
first `(.*)` is greedy); `none` when no backslash occurs. -/
def splitLastAux : List Char → Option (List Char × List Char)
  | [] => none
  | c :: cs =>
    match splitLastAux cs with
    | some (a, b) => some (c :: a, b)
    | none => if c = '\\' then some ([], cs) else none

/-- String-level wrapper for the `RegexDomain` groups. -/
def splitLastBackslash (s : String) : Option (String × String) :=
  match splitLastAux s.data with
  | some (a, b) => some (String.mk a, String.mk b)
  | none => none

/-- Embedding of `Authenticate.getLoginUserName`: email is used verbatim; `DOMAIN\name`
rebinds as `DOMAIN\name`; a bare name is prefixed with the configured
default domain. -/
def getLoginUserName (domain : String) (username : String) : String :=
  if matchEmail username then username
  else
    match splitLastBackslash username with
    | some (d, n) => d ++ "\\" ++ n
    | none => domain ++ "\\" ++ username

/-- The directory-lookup strategy selected by `Authenticate.getInfo`:
which external lookup is invoked and with which name. -/
inductive Lookup where
  | principal (name : String)
  | sam (name : String)
deriving DecidableEq

/-- Embedding of the dispatch of `Authenticate.getInfo`: email → `getInfoByUserPrincipalName`
with the raw username; otherwise `getInfoBySamAccountName` with the short
name (the part after the last backslash) or the bare name. -/
def getInfoLookup (username : String) : Lookup :=
  if matchEmail username then Lookup.principal username
  else
    match splitLastBackslash username with
    | some (_, n) => Lookup.sam n
    | none => Lookup.sam username

/- ## Engine state, environment and effects -/

/-- The mutable world the engine touches: the three Streamlit session-state
slots it names (`user`, `remember_me`, `auth_result`; `none` = key absent,
Python `None` stored is `some JVal.jnull`) and the browser cookie under the
configured cookie name (`Tok.noneTok` = no cookie). -/
structure World where
  sessUser : Option JVal
  sessRemember : Option JVal
  sessAuthResult : Option JVal
  cookie : Tok

/-- Counters of external-adapter invocations during one engine call, plus
whether `st.rerun()` was triggered. -/
structure Effects where
  ldapCalls : Nat
  cookieReads : Nat
  cookieWrites : Nat
  cookieDeletes : Nat
  rerun : Bool
deriving DecidableEq

/-- No external effect. -/
def Effects.zero : Effects := ⟨0, 0, 0, 0, false⟩

/-- Accumulate effects of sequential steps. -/
def Effects.add (a b : Effects) : Effects :=
  ⟨a.ldapCalls + b.ldapCalls, a.cookieReads + b.cookieReads,
   a.cookieWrites + b.cookieWrites, a.cookieDeletes + b.cookieDeletes,
   a.rerun || b.rerun⟩

/-- A parsed sign-in form submission (`SigninEvent`). -/
structure SigninEvent where
  username : String
  password : String
  remember : Bool

/-- A sign-out form submission (`SignoutEvent`); its payload is opaque to
the engine. -/
inductive SignoutEvent where
  | mk
deriving DecidableEq

/-- External collaborators of one render cycle: the outcome of
`ui.signinForm` + optional decryption + `getEvent` (collapsed: `some` iff a
`SigninEvent` was submitted this cycle), and `ldap_auth.login` as a function
of the bind name and password, returning a user dict, an error string, or
some other value. -/
structure Env where
  formResult : Option SigninEvent
  ldap : String → String → JVal

/-- Embedding of `Authenticate.__getUser`: read the session `user` slot, filtering
values that are not dicts to `None`. -/
def getUser (w : World) : Option JVal :=
  match w.sessUser with
  | none => none
  | some u => if u.isDict then some u else none

/-- Embedding of `Authenticate.__setUser`: write the session `user` slot (the slot key
is assumed configured; Python `None` is stored as `JVal.jnull`). -/
def setUser (u : Option JVal) (w : World) : World :=
  { w with sessUser := some (u.getD JVal.jnull) }

/-- Embedding of `Authenticate.__getRememberMe`: return the slot value when it holds a
bool, otherwise write `True` back and return `True`. -/
def getRememberMe (w : World) : Bool × World :=
  match w.sessRemember with
  | some (JVal.jbool b) => (b, w)
  | _ => (true, { w with sessRemember := some (JVal.jbool true) })

/-- Embedding of `Authenticate.__setCookie`: no-op without a user or cookie config or
when remember-me resolves to `False`; otherwise sign a fresh token and
store it as the cookie. -/
def setCookie (cc : Option CookieConfig) (user : Option JVal) (now : Int)
    (w : World) : World × Effects :=
  match user with
  | none => (w, Effects.zero)
  | some u =>
    match cc with
    | none => (w, Effects.zero)
    | some cfg =>
      let r := getRememberMe w
      if r.1 then
        ({ r.2 with cookie := Tok.strTok (tokenEncode cfg u now) },
         { Effects.zero with cookieWrites := 1 })
      else (r.2, Effects.zero)

/-- Embedding of `Authenticate.__getCookie`: nothing without a cookie config; otherwise
read the cookie and decode it. -/
def getCookie (cc : Option CookieConfig) (now : Int) (w : World) :
    Option JVal × Effects :=
  match cc with
  | none => (none, Effects.zero)
  | some cfg => (tokenDecode cfg w.cookie now, { Effects.zero with cookieReads := 1 })

/-- Test for `cookie_configs is not None and cookie_configs.auto_renewal`. -/
def autoRenew : Option CookieConfig → Bool
  | some cfg => cfg.auto_renewal
  | none => false

/-- Embedding of `Authenticate.__checkReauthentication`: fail when the candidate is not
a dict; with no additional check succeed (auto-renewing the cookie when
enabled); with a check configured, succeed only on the literal `True`
(`result != True` rejects), auto-renewing as above. -/
def checkReauthentication (cc : Option CookieConfig) (user : Option JVal)
    (ac : Option (JVal → CheckResult)) (now : Int) (w : World) :
    Bool × World × Effects :=
  match user with
  | some (JVal.jdict kvs) =>
    match ac with
    | none =>
      if autoRenew cc then
        let s := setCookie cc (some (JVal.jdict kvs)) now w
        (true, s.1, s.2)
      else (true, w, Effects.zero)
    | some f =>
      match f (JVal.jdict kvs) with
      | CheckResult.ok =>
        if autoRenew cc then
          let s := setCookie cc (some (JVal.jdict kvs)) now w
          (true, s.1, s.2)
        else (true, w, Effects.zero)
      | CheckResult.err _ => (false, w, Effects.zero)
  | _ => (false, w, Effects.zero)

/-- Embedding of `Authenticate.__createLoginForm`: compute the form's default
remember-me value (initializing the slot as a side effect) when cookies are
configured, then handle the submission: store the submitted remember flag,
normalize the username, call `ldap_auth.login` (one directory invocation),
let the optional callback veto with an error string, and return the user
dict on success (clearing the `auth_result` slot).  UI rendering, busy
message and error display are not modelled. -/
def createLoginForm (cc : Option CookieConfig) (env : Env)
    (cb : Option (JVal → Option String)) (domain : String)
    (w : World) : Option JVal × World × Effects :=
  let w1 :=
    match cc with
    | some _ => (getRememberMe w).2
    | none => w
  match env.formResult with
  | none => (none, w1, Effects.zero)
  | some ev =>
    let w2 := { w1 with sessRemember := some (JVal.jbool ev.remember) }
    let result := env.ldap (getLoginUserName domain ev.username) ev.password
    let result2 :=
      match cb with
      | some f =>
        match f result with
        | some s => JVal.jstr s
        | none => result
      | none => result
    match result2 with
    | JVal.jdict kvs =>
      (some (JVal.jdict kvs), { w2 with sessAuthResult := none },
       { Effects.zero with ldapCalls := 1 })
    | _ => (none, w2, { Effects.zero with ldapCalls := 1 })

/-- Embedding of `Authenticate.login`: try the session-sourced candidate, then the
cookie-sourced candidate (writing it into the session on success), then the
login form; on a successful submission persist the user to session and
cookie and trigger `st.rerun()`. -/
def login (cc : Option CookieConfig) (ac : Option (JVal → CheckResult))
    (env : Env) (cb : Option (JVal → Option String)) (domain : String)
    (now : Int) (w : World) : Option JVal × World × Effects :=
  let r1 := checkReauthentication cc (getUser w) ac now w
  if r1.1 then (getUser w, r1.2.1, r1.2.2)
  else
    let g := getCookie cc now r1.2.1
    let r2 := checkReauthentication cc g.1 ac now r1.2.1
    if r2.1 then (g.1, setUser g.1 r2.2.1, Effects.add (Effects.add r1.2.2 g.2) r2.2.2)
    else
      let f := createLoginForm cc env cb domain r2.2.1
      match f.1 with
      | some (JVal.jdict kvs) =>
        let sc := setCookie cc (some (JVal.jdict kvs)) now
          (setUser (some (JVal.jdict kvs)) f.2.1)
        (some (JVal.jdict kvs), sc.1,
         { Effects.add (Effects.add (Effects.add (Effects.add r1.2.2 g.2) r2.2.2) f.2.2) sc.2
             with rerun := true })
      | _ => (none, f.2.1, Effects.add (Effects.add (Effects.add r1.2.2 g.2) r2.2.2) f.2.2)

/-- Embedding of `Authenticate.__deleteCookie`: remove the cookie when present. -/
def deleteCookie (cc : Option CookieConfig) (w : World) : World × Effects :=
  match cc with
  | none => (w, Effects.zero)
  | some _ =>
    match w.cookie with
    | Tok.noneTok => (w, Effects.zero)
    | _ => ({ w with cookie := Tok.noneTok }, { Effects.zero with cookieDeletes := 1 })

/-- Embedding of `Authenticate.createLogoutForm`: on a sign-out submission, let the
optional callback cancel with the `'cancel'` sentinel; otherwise clear the
session user, delete the cookie and trigger `st.rerun()`. -/
def createLogoutForm (cc : Option CookieConfig) (ev : Option SignoutEvent)
    (cb : Option (SignoutEvent → Option String)) (w : World) : World × Effects :=
  match ev with
  | none => (w, Effects.zero)
  | some e =>
    let cancelled :=
      match cb with
      | some f => if f e = some "cancel" then true else false
      | none => false
    if cancelled then (w, Effects.zero)
    else
      let w1 := setUser none w
      let d := deleteCookie cc w1
      (d.1, { d.2 with rerun := true })

/- ## Concrete witness inputs -/

/-- Check function for the C1 witness: accepts only the admin user. -/
def c1check : JVal → CheckResult := fun v =>
  match v with
  | JVal.jdict (("role", JVal.jstr "admin") :: _) => CheckResult.ok
  | _ => CheckResult.err "denied"

/-- World for the C1 witness: session holds a user the check rejects, the
cookie holds a valid token for a user the check accepts. -/
def c1world : World :=
  ⟨some (JVal.jdict [("role", JVal.jstr "guest")]), none, none,
   Tok.strTok ⟨JVal.jdict [("user", JVal.jdict [("role", JVal.jstr "admin")]),
                            ("exp_date", JVal.jfloat 100)], "k"⟩⟩

/-- Environment for the C1 witness (no form submission). -/
def c1env : Env := ⟨none, fun _ _ => JVal.jstr "err"⟩

/-- Cookie config for the C5 counterexample: auto-renewal enabled. -/
def c5cfg : CookieConfig := ⟨"c", "k", 30, true⟩

/-- World for the C5 counterexample: session holds a valid user, the
remember-me slot is unset. -/
def c5world : World := ⟨some (JVal.jdict [("name", JVal.jstr "jdoe")]), none, none, Tok.noneTok⟩

/-- Environment for the C5 counterexample (no form submission). -/
def c5env : Env := ⟨none, fun _ _ => JVal.jstr "err"⟩

/-- Environment for the C6 witness (no form submission). -/
def c6env : Env := ⟨none, fun _ _ => JVal.jstr "err"⟩

/-- Environment for the C7 witness: a submission with valid credentials and
a directory that returns a concrete user dict. -/
def c7env : Env := ⟨some ⟨"jdoe", "pw", true⟩, fun _ _ => JVal.jdict [("name", JVal.jstr "J")]⟩

/- ## Helper lemmas -/

/-- A session slot holding a dict is returned by `__getUser` unchanged. -/
theorem getUser_some_dict (w : World) (su : List (String × JVal))
    (hs : w.sessUser = some (JVal.jdict su)) :
    getUser w = some (JVal.jdict su) := by
  simp [getUser, hs, JVal.isDict]

/-- A well-formed token signed with the configured key whose `exp_date` has
not elapsed decodes to its `user` payload. -/
theorem tokenDecode_valid (cfg : CookieConfig) (u : List (String × JVal))
    (e now : Int) (h : now ≤ e) :
    tokenDecode cfg
      (Tok.strTok ⟨JVal.jdict [("user", JVal.jdict u), ("exp_date", JVal.jfloat e)], cfg.key⟩)
      now = some (JVal.jdict u) := by
  simp [tokenDecode, lookupKey, JVal.isDict, not_lt.mpr h]

/-- The embedded `__getRememberMe` never touches the session `user` slot. -/
theorem getRememberMe_sessUser (w : World) :
    ((getRememberMe w).2).sessUser = w.sessUser := by
  unfold getRememberMe
  cases h : w.sessRemember with
  | none => simp [h]
  | some v => cases v <;> simp [h]

/-- The embedded `__getRememberMe` never touches the cookie. -/
theorem getRememberMe_cookie (w : World) :
    ((getRememberMe w).2).cookie = w.cookie := by
  unfold getRememberMe
  cases h : w.sessRemember with
  | none => simp [h]
  | some v => cases v <;> simp [h]

/-- The embedded `__getRememberMe` when the slot holds a bool: return it, no write. -/
theorem getRememberMe_of_bool (w : World) (b : Bool)
    (h : w.sessRemember = some (JVal.jbool b)) : getRememberMe w = (b, w) := by
  simp [getRememberMe, h]

/-- The embedded `__getRememberMe` when the slot is absent or holds a non-bool: `True`
is written back and returned. -/
theorem getRememberMe_default (w : World)
    (h : ∀ b, w.sessRemember ≠ some (JVal.jbool b)) :
    getRememberMe w = (true, { w with sessRemember := some (JVal.jbool true) }) := by
  unfold getRememberMe
  cases hr : w.sessRemember with
  | none => simp [hr]
  | some v =>
    cases v with
    | jbool b => exact absurd hr (h b)
    | jnull => simp [hr]
    | jint n => simp [hr]
    | jfloat x => simp [hr]
    | jstr s => simp [hr]
    | jdict kvs => simp [hr]
    | jlist xs => simp [hr]

/-- The embedded `__setCookie` makes no directory call, no cookie read or delete, and no
re-render. -/
theorem setCookie_eff (cc : Option CookieConfig) (u : Option JVal) (now : Int)
    (w : World) :
    (setCookie cc u now w).2.ldapCalls = 0 ∧
    (setCookie cc u now w).2.cookieReads = 0 ∧
    (setCookie cc u now w).2.rerun = false := by
  cases u with
  | none => simp [setCookie, Effects.zero]
  | some v =>
    cases cc with
    | none => simp [setCookie, Effects.zero]
    | some cfg =>
      simp only [setCookie]
      cases h : (getRememberMe w).1 <;> simp [h, Effects.zero]

/-- The embedded `__setCookie` never touches the session `user` slot. -/
theorem setCookie_sessUser (cc : Option CookieConfig) (u : Option JVal)
    (now : Int) (w : World) :
    ((setCookie cc u now w).1).sessUser = w.sessUser := by
  cases u with
  | none => rfl
  | some v =>
    cases cc with
    | none => rfl
    | some cfg =>
      simp only [setCookie]
      cases h : (getRememberMe w).1 <;> simp [h, getRememberMe_sessUser]

/-- The embedded `__checkReauthentication` on a `None` candidate: fail, unchanged. -/
theorem checkReauth_none (cc : Option CookieConfig)
    (ac : Option (JVal → CheckResult)) (now : Int) (w : World) :
    checkReauthentication cc none ac now w = (false, w, Effects.zero) := rfl

/-- The embedded `__checkReauthentication` when the configured check returns an error
message: fail, world unchanged, no effect. -/
theorem checkReauth_err (cc : Option CookieConfig) (su : List (String × JVal))
    (f : JVal → CheckResult) (m : String) (now : Int) (w : World)
    (hf : f (JVal.jdict su) = CheckResult.err m) :
    checkReauthentication cc (some (JVal.jdict su)) (some f) now w
      = (false, w, Effects.zero) := by
  simp [checkReauthentication, hf]

/-- The embedded `__checkReauthentication` succeeds on a dict candidate when no check is
configured. -/
theorem checkReauth_fst_noac (cc : Option CookieConfig)
    (su : List (String × JVal)) (now : Int) (w : World) :
    (checkReauthentication cc (some (JVal.jdict su)) none now w).1 = true := by
  simp only [checkReauthentication]
  cases h : autoRenew cc <;> simp [h]

/-- The embedded `__checkReauthentication` succeeds on a dict candidate when the check
returns the literal `True`. -/
theorem checkReauth_fst_ok (cc : Option CookieConfig)
    (su : List (String × JVal)) (f : JVal → CheckResult) (now : Int) (w : World)
    (hf : f (JVal.jdict su) = CheckResult.ok) :
    (checkReauthentication cc (some (JVal.jdict su)) (some f) now w).1 = true := by
  simp only [checkReauthentication, hf]
  cases h : autoRenew cc <;> simp [h]

/-- The embedded `__checkReauthentication` never touches the session `user` slot. -/
theorem checkReauth_sessUser (cc : Option CookieConfig) (u : Option JVal)
    (ac : Option (JVal → CheckResult)) (now : Int) (w : World) :
    ((checkReauthentication cc u ac now w).2.1).sessUser = w.sessUser := by
  cases u with
  | none => rfl
  | some v =>
    cases v with
    | jnull => rfl
    | jbool b => rfl
    | jint n => rfl
    | jfloat x => rfl
    | jstr s => rfl
    | jlist xs => rfl
    | jdict kvs =>
      cases ac with
      | none =>
        simp only [checkReauthentication]
        cases h : autoRenew cc <;> simp [h, setCookie_sessUser]
      | some f =>
        simp only [checkReauthentication]
        cases hf : f (JVal.jdict kvs) with
        | ok =>
          cases h : autoRenew cc <;> simp [h, setCookie_sessUser]
        | err m => simp

/-- The embedded `__checkReauthentication` makes no directory call and no cookie read. -/
theorem checkReauth_eff (cc : Option CookieConfig) (u : Option JVal)
    (ac : Option (JVal → CheckResult)) (now : Int) (w : World) :
    (checkReauthentication cc u ac now w).2.2.ldapCalls = 0 ∧
    (checkReauthentication cc u ac now w).2.2.cookieReads = 0 := by
  cases u with
  | none => simp [checkReauthentication, Effects.zero]
  | some v =>
    cases v with
    | jnull => simp [checkReauthentication, Effects.zero]
    | jbool b => simp [checkReauthentication, Effects.zero]
    | jint n => simp [checkReauthentication, Effects.zero]
    | jfloat x => simp [checkReauthentication, Effects.zero]
    | jstr s => simp [checkReauthentication, Effects.zero]
    | jlist xs => simp [checkReauthentication, Effects.zero]
    | jdict kvs =>
      cases ac with
      | none =>
        simp only [checkReauthentication]
        cases h : autoRenew cc <;>
          simp [h, Effects.zero, (setCookie_eff cc (some (JVal.jdict kvs)) now w).1,
            (setCookie_eff cc (some (JVal.jdict kvs)) now w).2.1]
      | some f =>
        simp only [checkReauthentication]
        cases hf : f (JVal.jdict kvs) with
        | ok =>
          cases h : autoRenew cc <;>
            simp [h, Effects.zero, (setCookie_eff cc (some (JVal.jdict kvs)) now w).1,
              (setCookie_eff cc (some (JVal.jdict kvs)) now w).2.1]
        | err m => simp [Effects.zero]

/- ## Claim theorems -/

/-- C2: in the reauthentication check, for every well-formed (dict-shaped)
candidate and every configured `additionalCheck`, any return value other
than the literal success marker `True` — i.e. any error message, whatever
its content — is treated as rejection: the check returns `False`, the
candidate is discarded, and no state change or adapter effect occurs. -/
theorem checkReauthentication_rejects_any_non_true (cc : Option CookieConfig)
    (su : List (String × JVal)) (f : JVal → CheckResult) (now : Int) (w : World)
    (hf : f (JVal.jdict su) ≠ CheckResult.ok) :
    checkReauthentication cc (some (JVal.jdict su)) (some f) now w
      = (false, w, Effects.zero) := by
  cases hr : f (JVal.jdict su) with
  | ok => exact absurd hr hf
  | err m => exact checkReauth_err cc su f m now w hr

/-- C2 witness: a check returning the error message `"True"` (a string, not
the literal `True`) on a concrete user is rejected. -/
theorem checkReauthentication_rejects_any_non_true_witness :
    checkReauthentication (some ⟨"c", "k", 30, true⟩)
      (some (JVal.jdict [("name", JVal.jstr "jdoe")]))
      (some (fun _ => CheckResult.err "True")) 0
      ⟨some (JVal.jdict [("name", JVal.jstr "jdoe")]), none, none, Tok.noneTok⟩
      = (false, ⟨some (JVal.jdict [("name", JVal.jstr "jdoe")]), none, none, Tok.noneTok⟩,
         Effects.zero) :=
  checkReauthentication_rejects_any_non_true (some ⟨"c", "k", 30, true⟩)
    [("name", JVal.jstr "jdoe")] (fun _ => CheckResult.err "True") 0
    ⟨some (JVal.jdict [("name", JVal.jstr "jdoe")]), none, none, Tok.noneTok⟩
    (fun h => CheckResult.noConfusion h)

/-- C3 counterexample: a token signed with the correct key whose payload is
a mapping with an integer-typed `exp_date` far in the future and a mapping
`user` satisfies none of the spec's enumerated failure conditions (its
`exp_date` is present and numeric), yet `__tokenDecode` returns absent,
because the code demands `type(exp_date) is float`.  So decode does not
fail *exactly* on the enumerated conditions. -/
theorem tokenDecode_numeric_int_exp_counterexample :
    tokenDecode ⟨"c", "k", 30, false⟩
      (Tok.strTok ⟨JVal.jdict [("exp_date", JVal.jint 9999999999), ("user", JVal.jdict [])], "k"⟩)
      0 = none
    ∧ decodeFailsSpec ⟨"c", "k", 30, false⟩
      (Tok.strTok ⟨JVal.jdict [("exp_date", JVal.jint 9999999999), ("user", JVal.jdict [])], "k"⟩)
      0 = false :=
  ⟨rfl, rfl⟩

/-- C3 amended: for every input token and config, decode (a total function,
so it never raises) returns absent exactly on: token absent, token not a
string, signature invalid, payload not a mapping, `exp_date` missing or not
a float (an integer-typed timestamp is also rejected), `exp_date` in the
past, or `user` missing or not a mapping.  In particular any expired or
tampered token decodes to absent, since those satisfy the right-hand
side. -/
theorem tokenDecode_eq_none_iff_float_failure (cfg : CookieConfig) (t : Tok) (now : Int) :
    tokenDecode cfg t now = none ↔ decodeFailsFloat cfg t now = true := by
  cases t with
  | noneTok => simp [tokenDecode, decodeFailsFloat]
  | otherTok => simp [tokenDecode, decodeFailsFloat]
  | strTok j =>
    obtain ⟨p, k⟩ := j
    simp only [tokenDecode, decodeFailsFloat]
    by_cases hk : k = cfg.key
    · simp only [if_pos hk]
      cases p with
      | jnull => simp
      | jbool b => simp
      | jint n => simp
      | jfloat x => simp
      | jstr s => simp
      | jlist xs => simp
      | jdict kvs =>
        cases hl : lookupKey "exp_date" kvs with
        | none => simp [hl]
        | some ed =>
          cases ed with
          | jnull => simp [hl]
          | jbool b => simp [hl]
          | jint n => simp [hl]
          | jstr s => simp [hl]
          | jlist xs => simp [hl]
          | jdict kvs2 => simp [hl]
          | jfloat e =>
            by_cases he : e < now
            · simp [hl, he]
            · cases hu : lookupKey "user" kvs with
              | none => simp [hl, he, hu]
              | some u => cases hu2 : u.isDict <;> simp [hl, he, hu, hu2]
    · simp [if_neg hk]

/-- C4: for every user mapping `u` and cookie config, decoding the token
produced by encoding `u` under the same config yields `u` again, as long as
decoding happens before the configured validity window (expiry days after
encoding) has elapsed. -/
theorem tokenDecode_tokenEncode_roundtrip (cfg : CookieConfig)
    (u : List (String × JVal)) (tEnc tDec : Int)
    (h : tDec ≤ tEnc + cfg.expiry_days * 86400) :
    tokenDecode cfg (Tok.strTok (tokenEncode cfg (JVal.jdict u) tEnc)) tDec
      = some (JVal.jdict u) :=
  tokenDecode_valid cfg u (tEnc + cfg.expiry_days * 86400) tDec h

/-- C4 witness: a concrete round trip, decoded one day after encoding with
a 30-day window. -/
theorem tokenDecode_tokenEncode_roundtrip_witness :
    tokenDecode ⟨"c", "k", 30, false⟩
      (Tok.strTok (tokenEncode ⟨"c", "k", 30, false⟩ (JVal.jdict [("name", JVal.jstr "jdoe")]) 0))
      86400 = some (JVal.jdict [("name", JVal.jstr "jdoe")]) :=
  tokenDecode_tokenEncode_roundtrip ⟨"c", "k", 30, false⟩
    [("name", JVal.jstr "jdoe")] 0 86400 (by decide)

/-- C1: with an additional check configured, a session-sourced candidate the
check rejects does not make `login` return unauthenticated immediately: the
engine falls through, reads the cookie (one cookie read), and when the
cookie-sourced candidate passes the same check it is returned and written
into the session — a rejected session candidate still lets the cookie
source be tried in the same invocation. -/
theorem login_session_rejected_still_tries_cookie (cfg : CookieConfig)
    (f : JVal → CheckResult) (env : Env) (cb : Option (JVal → Option String))
    (domain : String) (now : Int) (w : World)
    (su cu : List (String × JVal)) (m : String)
    (hs : w.sessUser = some (JVal.jdict su))
    (hrej : f (JVal.jdict su) = CheckResult.err m)
    (hc : tokenDecode cfg w.cookie now = some (JVal.jdict cu))
    (hok : f (JVal.jdict cu) = CheckResult.ok) :
    (login (some cfg) (some f) env cb domain now w).1 = some (JVal.jdict cu) ∧
    ((login (some cfg) (some f) env cb domain now w).2.1).sessUser = some (JVal.jdict cu) ∧
    (login (some cfg) (some f) env cb domain now w).2.2.cookieReads = 1 := by
  have hg : getUser w = some (JVal.jdict su) := getUser_some_dict w su hs
  have h1 : checkReauthentication (some cfg) (some (JVal.jdict su)) (some f) now w
      = (false, w, Effects.zero) := checkReauth_err (some cfg) su f m now w hrej
  have hfst : (checkReauthentication (some cfg) (some (JVal.jdict cu)) (some f) now w).1 = true :=
    checkReauth_fst_ok (some cfg) cu f now w hok
  simp [login, hg, h1, getCookie, hc, hfst, setUser, Effects.add, Effects.zero,
    (checkReauth_eff (some cfg) (some (JVal.jdict cu)) (some f) now w).2,
    checkReauth_sessUser]


/-- C1 witness: the rejected session user is passed over and the
cookie-sourced admin user is returned. -/
theorem login_session_rejected_still_tries_cookie_witness :
    (login (some ⟨"c", "k", 30, false⟩) (some c1check) c1env none "CORP" 0 c1world).1
      = some (JVal.jdict [("role", JVal.jstr "admin")]) ∧
    ((login (some ⟨"c", "k", 30, false⟩) (some c1check) c1env none "CORP" 0 c1world).2.1).sessUser
      = some (JVal.jdict [("role", JVal.jstr "admin")]) ∧
    (login (some ⟨"c", "k", 30, false⟩) (some c1check) c1env none "CORP" 0 c1world).2.2.cookieReads = 1 :=
  login_session_rejected_still_tries_cookie ⟨"c", "k", 30, false⟩ c1check c1env none
    "CORP" 0 c1world [("role", JVal.jstr "guest")] [("role", JVal.jstr "admin")]
    "denied" rfl rfl rfl rfl


/-- C5 counterexample: with a valid session user, no additional check, and
cookie support configured with auto-renewal, `login` does return the
session user — but it performs one cookie WRITE on this fast path (the
sliding-expiry renewal at line 293 of `authenticate.py`), so the claim that
no cookie adapter invocation occurs for *every* such state is false. -/
theorem login_fast_path_cookie_write_counterexample :
    (login (some c5cfg) none c5env none "CORP" 0 c5world).1
      = some (JVal.jdict [("name", JVal.jstr "jdoe")])
    ∧ (login (some c5cfg) none c5env none "CORP" 0 c5world).2.2.cookieWrites = 1
    ∧ ¬ (login (some c5cfg) none c5env none "CORP" 0 c5world).2.2.cookieWrites = 0 := by
  refine ⟨rfl, rfl, ?_⟩
  decide

/-- C5 amended: with a valid session user and no additional check, when
cookie auto-renewal does not apply (no cookie support, or auto-renewal
disabled), `login` returns the session user with the world unchanged and no
adapter effect at all — no directory call, no cookie read, no cookie
write. -/
theorem login_fast_path_no_adapter_calls (cc : Option CookieConfig) (env : Env)
    (cb : Option (JVal → Option String)) (domain : String) (now : Int) (w : World)
    (su : List (String × JVal))
    (hs : w.sessUser = some (JVal.jdict su)) (har : autoRenew cc = false) :
    login cc none env cb domain now w = (some (JVal.jdict su), w, Effects.zero) := by
  have hg : getUser w = some (JVal.jdict su) := getUser_some_dict w su hs
  have h1 : checkReauthentication cc (some (JVal.jdict su)) none now w
      = (true, w, Effects.zero) := by
    simp [checkReauthentication, har]
  simp [login, hg, h1]

/-- C5 amended witness: concrete fast path without cookie support. -/
theorem login_fast_path_no_adapter_calls_witness :
    login none none c5env none "CORP" 0
      ⟨some (JVal.jdict [("name", JVal.jstr "jdoe")]), none, none, Tok.noneTok⟩
      = (some (JVal.jdict [("name", JVal.jstr "jdoe")]),
         ⟨some (JVal.jdict [("name", JVal.jstr "jdoe")]), none, none, Tok.noneTok⟩,
         Effects.zero) :=
  login_fast_path_no_adapter_calls none c5env none "CORP" 0
    ⟨some (JVal.jdict [("name", JVal.jstr "jdoe")]), none, none, Tok.noneTok⟩
    [("name", JVal.jstr "jdoe")] rfl rfl

/-- C6: with the session user slot empty and the cookie holding a correctly
signed token whose `exp_date` has not passed, `login` (no additional check)
returns the decoded user, writes it into the session user slot, and never
invokes the directory verifier. -/
theorem login_cookie_reauthentication (cfg : CookieConfig) (env : Env)
    (cb : Option (JVal → Option String)) (domain : String) (now : Int) (w : World)
    (u : List (String × JVal)) (e : Int)
    (hs : w.sessUser = none)
    (hc : w.cookie = Tok.strTok ⟨JVal.jdict [("user", JVal.jdict u), ("exp_date", JVal.jfloat e)], cfg.key⟩)
    (he : now ≤ e) :
    (login (some cfg) none env cb domain now w).1 = some (JVal.jdict u) ∧
    ((login (some cfg) none env cb domain now w).2.1).sessUser = some (JVal.jdict u) ∧
    (login (some cfg) none env cb domain now w).2.2.ldapCalls = 0 := by
  have hg : getUser w = none := by simp [getUser, hs]
  have hdec : tokenDecode cfg w.cookie now = some (JVal.jdict u) := by
    rw [hc]; exact tokenDecode_valid cfg u e now he
  have hfst : (checkReauthentication (some cfg) (some (JVal.jdict u)) none now w).1 = true :=
    checkReauth_fst_noac (some cfg) u now w
  simp [login, hg, checkReauth_none, getCookie, hdec, hfst, setUser,
    Effects.add, Effects.zero,
    (checkReauth_eff (some cfg) (some (JVal.jdict u)) none now w).1,
    checkReauth_sessUser]


/-- C6 witness: empty session, cookie token with `exp_date` ten days ahead
(864000 seconds) and the matching key. -/
theorem login_cookie_reauthentication_witness :
    (login (some ⟨"c", "k", 30, false⟩) none c6env none "CORP" 0
        ⟨none, none, none,
         Tok.strTok ⟨JVal.jdict [("user", JVal.jdict [("name", JVal.jstr "jdoe")]),
                                  ("exp_date", JVal.jfloat 864000)], "k"⟩⟩).1
      = some (JVal.jdict [("name", JVal.jstr "jdoe")]) ∧
    ((login (some ⟨"c", "k", 30, false⟩) none c6env none "CORP" 0
        ⟨none, none, none,
         Tok.strTok ⟨JVal.jdict [("user", JVal.jdict [("name", JVal.jstr "jdoe")]),
                                  ("exp_date", JVal.jfloat 864000)], "k"⟩⟩).2.1).sessUser
      = some (JVal.jdict [("name", JVal.jstr "jdoe")]) ∧
    (login (some ⟨"c", "k", 30, false⟩) none c6env none "CORP" 0
        ⟨none, none, none,
         Tok.strTok ⟨JVal.jdict [("user", JVal.jdict [("name", JVal.jstr "jdoe")]),
                                  ("exp_date", JVal.jfloat 864000)], "k"⟩⟩).2.2.ldapCalls = 0 :=
  login_cookie_reauthentication ⟨"c", "k", 30, false⟩ c6env none "CORP" 0
    ⟨none, none, none,
     Tok.strTok ⟨JVal.jdict [("user", JVal.jdict [("name", JVal.jstr "jdoe")]),
                              ("exp_date", JVal.jfloat 864000)], "k"⟩⟩
    [("name", JVal.jstr "jdoe")] 864000 rfl rfl (by decide)

/-- The embedded `__getRememberMe` never touches the `auth_result` slot. -/
theorem getRememberMe_sessAuthResult (w : World) :
    ((getRememberMe w).2).sessAuthResult = w.sessAuthResult := by
  unfold getRememberMe
  cases h : w.sessRemember with
  | none => simp [h]
  | some v => cases v <;> simp [h]

/-- The embedded `__setCookie` with a configured cookie and the remember flag set: the
token is signed and stored, one cookie write. -/
theorem setCookie_remember_true (cfg : CookieConfig) (v : JVal) (now : Int)
    (w : World) (h : w.sessRemember = some (JVal.jbool true)) :
    setCookie (some cfg) (some v) now w
      = ({ w with cookie := Tok.strTok (tokenEncode cfg v now) },
         ⟨0, 0, 1, 0, false⟩) := by
  simp [setCookie, getRememberMe_of_bool w true h, Effects.zero]

/-- The embedded `__createLoginForm` on a submission whose credentials the directory
accepts: exactly one directory call, the remember flag stored, the
`auth_result` slot cleared, and the user dict returned. -/
theorem createLoginForm_success (cfg : CookieConfig) (env : Env)
    (ev : SigninEvent) (domain : String) (w : World) (u : List (String × JVal))
    (hf : env.formResult = some ev)
    (hl : env.ldap (getLoginUserName domain ev.username) ev.password = JVal.jdict u) :
    createLoginForm (some cfg) env none domain w
      = (some (JVal.jdict u),
         { w with sessRemember := some (JVal.jbool ev.remember), sessAuthResult := none },
         ⟨1, 0, 0, 0, false⟩) := by
  simp [createLoginForm, hf, hl, getRememberMe_sessUser, getRememberMe_cookie,
    getRememberMe_sessAuthResult, Effects.zero]

/-- The session fast path of `login` for a dict-holding session slot and no
additional check: the session user is returned with no directory call and
no cookie read. -/
theorem login_fast_path_generic (cc : Option CookieConfig) (env : Env)
    (cb : Option (JVal → Option String)) (domain : String) (now : Int)
    (w : World) (su : List (String × JVal))
    (hs : w.sessUser = some (JVal.jdict su)) :
    (login cc none env cb domain now w).1 = some (JVal.jdict su) ∧
    (login cc none env cb domain now w).2.2.ldapCalls = 0 ∧
    (login cc none env cb domain now w).2.2.cookieReads = 0 := by
  have hg := getUser_some_dict w su hs
  have hfst := checkReauth_fst_noac cc su now w
  simp [login, hg, hfst, (checkReauth_eff cc (some (JVal.jdict su)) none now w).1,
        (checkReauth_eff cc (some (JVal.jdict su)) none now w).2]

/-- C7: with session and cookie both empty and a form submission (remember
flag set) whose credentials the directory accepts, `login` invokes the
directory verifier exactly once, returns the obtained user, updates both
the session user slot and the cookie (the full result world and effect
counters are pinned down: one directory call, one cookie read, one cookie
write, re-render triggered), and a subsequent `login` call in a new cycle
on the resulting world returns the same user via the session fast path,
with no directory call and no cookie read. -/
theorem login_form_success_establishes_state (cfg : CookieConfig)
    (env env2 : Env) (ev : SigninEvent) (domain : String) (now now2 : Int)
    (w : World) (u : List (String × JVal))
    (hs : w.sessUser = none)
    (hcook : w.cookie = Tok.noneTok)
    (hf : env.formResult = some ev)
    (hrem : ev.remember = true)
    (hl : env.ldap (getLoginUserName domain ev.username) ev.password = JVal.jdict u) :
    login (some cfg) none env none domain now w
      = (some (JVal.jdict u),
         ⟨some (JVal.jdict u), some (JVal.jbool true), none,
          Tok.strTok (tokenEncode cfg (JVal.jdict u) now)⟩,
         ⟨1, 1, 1, 0, true⟩)
    ∧ (login (some cfg) none env2 none domain now2
         ⟨some (JVal.jdict u), some (JVal.jbool true), none,
          Tok.strTok (tokenEncode cfg (JVal.jdict u) now)⟩).1 = some (JVal.jdict u)
    ∧ (login (some cfg) none env2 none domain now2
         ⟨some (JVal.jdict u), some (JVal.jbool true), none,
          Tok.strTok (tokenEncode cfg (JVal.jdict u) now)⟩).2.2.ldapCalls = 0
    ∧ (login (some cfg) none env2 none domain now2
         ⟨some (JVal.jdict u), some (JVal.jbool true), none,
          Tok.strTok (tokenEncode cfg (JVal.jdict u) now)⟩).2.2.cookieReads = 0 := by
  have hform := createLoginForm_success cfg env ev domain w u hf hl
  rw [hrem] at hform
  have hfast := login_fast_path_generic (some cfg) env2 none domain now2
    ⟨some (JVal.jdict u), some (JVal.jbool true), none,
     Tok.strTok (tokenEncode cfg (JVal.jdict u) now)⟩ u rfl
  refine ⟨?_, hfast.1, hfast.2.1, hfast.2.2⟩
  have hg : getUser w = none := by simp [getUser, hs]
  have hsc := setCookie_remember_true cfg (JVal.jdict u) now
    ⟨some (JVal.jdict u), some (JVal.jbool true), none, Tok.noneTok⟩ rfl
  simp [login, hg, hs, checkReauth_none, getCookie, hcook, tokenDecode, hform,
    setUser, hsc, Effects.add, Effects.zero]


/-- C7 witness: the full scenario on concrete data. -/
theorem login_form_success_establishes_state_witness :
    login (some ⟨"c", "k", 30, false⟩) none c7env none "CORP" 0 ⟨none, none, none, Tok.noneTok⟩
      = (some (JVal.jdict [("name", JVal.jstr "J")]),
         ⟨some (JVal.jdict [("name", JVal.jstr "J")]), some (JVal.jbool true), none,
          Tok.strTok (tokenEncode ⟨"c", "k", 30, false⟩ (JVal.jdict [("name", JVal.jstr "J")]) 0)⟩,
         ⟨1, 1, 1, 0, true⟩)
    ∧ (login (some ⟨"c", "k", 30, false⟩) none c7env none "CORP" 5
         ⟨some (JVal.jdict [("name", JVal.jstr "J")]), some (JVal.jbool true), none,
          Tok.strTok (tokenEncode ⟨"c", "k", 30, false⟩ (JVal.jdict [("name", JVal.jstr "J")]) 0)⟩).1
        = some (JVal.jdict [("name", JVal.jstr "J")])
    ∧ (login (some ⟨"c", "k", 30, false⟩) none c7env none "CORP" 5
         ⟨some (JVal.jdict [("name", JVal.jstr "J")]), some (JVal.jbool true), none,
          Tok.strTok (tokenEncode ⟨"c", "k", 30, false⟩ (JVal.jdict [("name", JVal.jstr "J")]) 0)⟩).2.2.ldapCalls = 0
    ∧ (login (some ⟨"c", "k", 30, false⟩) none c7env none "CORP" 5
         ⟨some (JVal.jdict [("name", JVal.jstr "J")]), some (JVal.jbool true), none,
          Tok.strTok (tokenEncode ⟨"c", "k", 30, false⟩ (JVal.jdict [("name", JVal.jstr "J")]) 0)⟩).2.2.cookieReads = 0 :=
  login_form_success_establishes_state ⟨"c", "k", 30, false⟩ c7env c7env
    ⟨"jdoe", "pw", true⟩ "CORP" 0 5 ⟨none, none, none, Tok.noneTok⟩
    [("name", JVal.jstr "J")] rfl rfl rfl rfl rfl

/-- C8: both the bind-name builder (`getLoginUserName`) and the info-lookup
dispatch (`getInfo`) apply the same three-way classification of the raw
login string: an email is used verbatim for the bind and looked up by the
principal-name strategy; a `DOMAIN\name` input binds as the `DOMAIN\name`
literal and is looked up by the short-name strategy with the short name;
any other input binds as the default domain prefixed form and is looked up
by the short-name strategy with the bare name. -/
theorem normalizer_three_way_classification (domain username : String) :
    (matchEmail username = true →
      getLoginUserName domain username = username ∧
      getInfoLookup username = Lookup.principal username)
    ∧ (matchEmail username = false →
       ∀ d n, splitLastBackslash username = some (d, n) →
         getLoginUserName domain username = d ++ "\\" ++ n ∧
         getInfoLookup username = Lookup.sam n)
    ∧ (matchEmail username = false →
       splitLastBackslash username = none →
         getLoginUserName domain username = domain ++ "\\" ++ username ∧
         getInfoLookup username = Lookup.sam username) := by
  refine ⟨fun h1 => ?_, fun h1 d n h2 => ?_, fun h1 h2 => ?_⟩
  · simp [getLoginUserName, getInfoLookup, h1]
  · simp [getLoginUserName, getInfoLookup, h1, h2]
  · simp [getLoginUserName, getInfoLookup, h1, h2]

/-- C8 witness: the spec's own examples — `"CORP\jdoe"` binds as
`"CORP\jdoe"` with lookup `jdoe`, bare `"jdoe"` binds as `"CORP\jdoe"`,
and an email is used verbatim with the principal-name strategy. -/
theorem normalizer_three_way_classification_witness :
    (getLoginUserName "CORP" "CORP\\jdoe" = "CORP\\jdoe" ∧
     getInfoLookup "CORP\\jdoe" = Lookup.sam "jdoe") ∧
    (getLoginUserName "CORP" "jdoe" = "CORP\\jdoe" ∧
     getInfoLookup "jdoe" = Lookup.sam "jdoe") ∧
    (getLoginUserName "CORP" "jdoe@example.com" = "jdoe@example.com" ∧
     getInfoLookup "jdoe@example.com" = Lookup.principal "jdoe@example.com") :=
  ⟨(normalizer_three_way_classification "CORP" "CORP\\jdoe").2.1 (by decide)
      "CORP" "jdoe" (by decide),
   (normalizer_three_way_classification "CORP" "jdoe").2.2 (by decide) (by decide),
   (normalizer_three_way_classification "CORP" "jdoe@example.com").1 (by decide)⟩

/-- C9: when the logout callback returns the `'cancel'` sentinel on
submission, the logout is aborted with the world unchanged — the session
user slot keeps its value, the cookie is not deleted, and no re-render is
triggered (all effects zero). -/
theorem logout_cancel_aborts (cc : Option CookieConfig) (ev : SignoutEvent)
    (f : SignoutEvent → Option String) (w : World)
    (hf : f ev = some "cancel") :
    createLogoutForm cc (some ev) (some f) w = (w, Effects.zero) := by
  simp [createLogoutForm, hf]

/-- C9 witness: a cancelling callback leaves a logged-in world with a
cookie untouched. -/
theorem logout_cancel_aborts_witness :
    createLogoutForm (some ⟨"c", "k", 30, false⟩) (some SignoutEvent.mk)
      (some (fun _ => some "cancel"))
      ⟨some (JVal.jdict [("name", JVal.jstr "jdoe")]), some (JVal.jbool true), none,
       Tok.strTok ⟨JVal.jdict [("user", JVal.jdict []), ("exp_date", JVal.jfloat 9)], "k"⟩⟩
      = (⟨some (JVal.jdict [("name", JVal.jstr "jdoe")]), some (JVal.jbool true), none,
          Tok.strTok ⟨JVal.jdict [("user", JVal.jdict []), ("exp_date", JVal.jfloat 9)], "k"⟩⟩,
         Effects.zero) :=
  logout_cancel_aborts (some ⟨"c", "k", 30, false⟩) SignoutEvent.mk
    (fun _ => some "cancel")
    ⟨some (JVal.jdict [("name", JVal.jstr "jdoe")]), some (JVal.jbool true), none,
     Tok.strTok ⟨JVal.jdict [("user", JVal.jdict []), ("exp_date", JVal.jfloat 9)], "k"⟩⟩
    rfl

/-- C10: whenever the remember-me slot is absent or holds a non-boolean
value, the engine resolves the flag to `True` and writes `True` back into
the slot; consequently, with cookie support configured, `__setCookie` (run
on successful login) writes the persistent cookie, and so does the
auto-renewal path of the reauthentication check when auto-renewal is
enabled. -/
theorem rememberMe_default_true_writes_cookie (cfg : CookieConfig)
    (u : List (String × JVal)) (now : Int) (w : World)
    (h : ∀ b, w.sessRemember ≠ some (JVal.jbool b)) :
    getRememberMe w = (true, { w with sessRemember := some (JVal.jbool true) })
    ∧ setCookie (some cfg) (some (JVal.jdict u)) now w
        = ({ w with
              sessRemember := some (JVal.jbool true),
              cookie := Tok.strTok (tokenEncode cfg (JVal.jdict u) now) },
           ⟨0, 0, 1, 0, false⟩)
    ∧ (cfg.auto_renewal = true →
        (checkReauthentication (some cfg) (some (JVal.jdict u)) none now w).2.2.cookieWrites = 1) := by
  have hg := getRememberMe_default w h
  refine ⟨hg, ?_, fun har => ?_⟩
  · simp [setCookie, hg, Effects.zero]
  · simp [checkReauthentication, autoRenew, har, setCookie, hg, Effects.zero]

/-- C10 witness: an absent remember-me slot resolves to `True`, is written
back, and the auto-renewal cookie write happens. -/
theorem rememberMe_default_true_writes_cookie_witness :
    getRememberMe ⟨some (JVal.jdict [("name", JVal.jstr "jdoe")]), none, none, Tok.noneTok⟩
      = (true, ⟨some (JVal.jdict [("name", JVal.jstr "jdoe")]), some (JVal.jbool true), none, Tok.noneTok⟩)
    ∧ setCookie (some ⟨"c", "k", 30, true⟩)
        (some (JVal.jdict [("name", JVal.jstr "jdoe")])) 0
        ⟨some (JVal.jdict [("name", JVal.jstr "jdoe")]), none, none, Tok.noneTok⟩
      = (⟨some (JVal.jdict [("name", JVal.jstr "jdoe")]), some (JVal.jbool true), none,
          Tok.strTok (tokenEncode ⟨"c", "k", 30, true⟩ (JVal.jdict [("name", JVal.jstr "jdoe")]) 0)⟩,
         ⟨0, 0, 1, 0, false⟩)
    ∧ (checkReauthentication (some ⟨"c", "k", 30, true⟩)
        (some (JVal.jdict [("name", JVal.jstr "jdoe")])) none 0
        ⟨some (JVal.jdict [("name", JVal.jstr "jdoe")]), none, none, Tok.noneTok⟩).2.2.cookieWrites = 1 :=
  ⟨(rememberMe_default_true_writes_cookie ⟨"c", "k", 30, true⟩
      [("name", JVal.jstr "jdoe")] 0
      ⟨some (JVal.jdict [("name", JVal.jstr "jdoe")]), none, none, Tok.noneTok⟩
      (fun _ hb => Option.noConfusion hb)).1,
   (rememberMe_default_true_writes_cookie ⟨"c", "k", 30, true⟩
      [("name", JVal.jstr "jdoe")] 0
      ⟨some (JVal.jdict [("name", JVal.jstr "jdoe")]), none, none, Tok.noneTok⟩
      (fun _ hb => Option.noConfusion hb)).2.1,
   (rememberMe_default_true_writes_cookie ⟨"c", "k", 30, true⟩
      [("name", JVal.jstr "jdoe")] 0
      ⟨some (JVal.jdict [("name", JVal.jstr "jdoe")]), none, none, Tok.noneTok⟩
      (fun _ hb => Option.noConfusion hb)).2.2 rfl⟩

end StreamlitLdap
